import Mathlib

/-!
Shallow embedding of `plugins/publish-code/audit.py` (a mechanical
publish-readiness audit script) and proofs about its scan orchestration,
report aggregation and error handling.

Python strings are modelled as `List Char`; Python's standard-library
services that the script calls (the `re` regex engine, `urllib.parse`,
`json.loads`, `subprocess`, the filesystem) are external collaborators and
are modelled as explicit inputs: regex matching and URL parsing as function
fields of `PyLib`, subprocess and filesystem outcomes as fields of `Env`.
Everything the script itself computes is embedded as executable Lean
functions, one per Python function, keeping the source names.
-/

set_option autoImplicit false

namespace Audit

/-- Python strings, modelled as lists of characters. -/
abbrev Str := List Char

/-- Embedding of Python `str.strip()`: drop leading and trailing whitespace. -/
def strip (s : Str) : Str :=
  ((s.dropWhile Char.isWhitespace).reverse.dropWhile Char.isWhitespace).reverse

/-- Embedding of Python `str.lower()` (ASCII case folding suffices here). -/
def lower (s : Str) : Str := s.map Char.toLower

/-- Embedding of Python `s.endswith(suf)`. -/
def endswith (s suf : Str) : Bool := suf.isSuffixOf s

/-- Embedding of Python `s.split(c)` for a one-character separator
(every occurrence splits; `"".split(c) == [""]`). -/
def splitOnChar (c : Char) : Str → List Str
  | [] => [[]]
  | a :: t =>
    let r := splitOnChar c t
    if a = c then [] :: r
    else
      match r with
      | [] => [[a]]
      | h :: t2 => (a :: h) :: t2

/-- Embedding of Python `s.split(c, 1)`: split at the first occurrence of `c`
only; the second component is `none` when `c` does not occur. -/
def splitFirst (c : Char) : Str → Str × Option Str
  | [] => ([], none)
  | a :: t =>
    if a = c then ([], some t)
    else
      let r := splitFirst c t
      (a :: r.1, r.2)

/-- Embedding of Python `needle in hay` on strings: contiguous substring
containment. -/
def isSubstring (needle : Str) : Str → Bool
  | [] => needle.isPrefixOf []
  | a :: t => needle.isPrefixOf (a :: t) || isSubstring needle t

/-- Embedding of Python `str.isdigit()` for the ASCII output of curl. -/
def isdigit (s : Str) : Bool := !s.isEmpty && s.all Char.isDigit

/-- Embedding of Python `int(s)` on an all-digit string. -/
def toNatDigits (s : Str) : Nat := s.foldl (fun n c => 10 * n + (c.toNat - 48)) 0

/-- Embedding of `pathlib.PurePath.name`: the last `/`-separated component. -/
def pathName (p : Str) : Str := (splitOnChar '/' p).getLastD []

/-- Index of the last occurrence of `c` in `s` (Python `str.rfind`),
`none` when absent. -/
def rfindIdx (c : Char) (s : Str) : Option Nat :=
  match s.reverse.findIdx? (fun a => a = c) with
  | none => none
  | some j => some (s.length - 1 - j)

/-- Embedding of `pathlib.PurePath.suffix`: `name[i:]` for `i = name.rfind(".")`
when `0 < i < len(name) - 1`, else the empty string.  The audit joins
`repo_path / file_path`, whose last component is that of `file_path`. -/
def pathSuffix (p : Str) : Str :=
  let name := pathName p
  match rfindIdx '.' name with
  | none => []
  | some i => if 0 < i ∧ i < name.length - 1 then name.drop i else []

/-- What the audit observes about one file of the repository
(`full_path = repo_path / file_path`): existence, regular-file test, size,
and the result of `read_text(errors="ignore")` (`none` models a raised
exception, which every scanner catches and turns into "no finding"). -/
structure FileInfo where
  present : Bool
  isFile : Bool
  size : Nat
  content : Option Str
deriving DecidableEq

/-- One object of the gitleaks JSON report; each field is present or absent
(Python `dict.get` with a default). -/
structure GitleaksEntry where
  File : Option Str
  StartLine : Option Int
  Description : Option Str
  RuleID : Option Str
deriving DecidableEq

/-- What `json.loads` on gitleaks stdout gives the list comprehension of
`scan_secrets_gitleaks`: `decodeError` is a raised `json.JSONDecodeError`
(caught by the source); `objects` is a list of JSON objects, on which the
comprehension succeeds; `badShape` is any other successfully decoded value —
`null`, a number, a dict, a list with non-object elements — on which the
comprehension raises a TypeError or AttributeError with the given message,
an exception the source does NOT catch. -/
inductive GitleaksJson where
  | decodeError
  | objects (entries : List GitleaksEntry)
  | badShape (msg : Str)
deriving DecidableEq

/-- The Python standard-library services used by the script, modelled as
abstract functions: `search pat text` is `re.search(pat, text) is not None`,
`searchCI` the same with `re.IGNORECASE`, `findUrls text` the second groups of
`re.finditer` for the markdown-link regex in order of occurrence, `netloc u`
is `urllib.parse.urlparse(u).netloc`, and `parseGitleaks out` is the outcome
of `json.loads(out)` as seen by the gitleaks list comprehension (decode
error, well-shaped list of objects, or decoded-but-wrong-shape value). -/
structure PyLib where
  search : Str → Str → Bool
  searchCI : Str → Str → Bool
  findUrls : Str → List Str
  netloc : Str → Str
  parseGitleaks : Str → GitleaksJson

/-- One entry of the report's `potential_secrets` list.  Gitleaks entries
carry a line number; fallback entries do not (`line = none`). -/
structure SecretEntry where
  file : Str
  line : Option Int
  type : Str
  severity : Str
deriving DecidableEq

/-- One entry of `hardcoded_paths`. -/
structure PathFinding where
  file : Str
  line : Nat
  type : Str
  sample : Str
deriving DecidableEq

/-- One entry of `org_references`. -/
structure OrgFinding where
  file : Str
  type : Str
deriving DecidableEq

/-- One entry of `typos`. -/
structure TypoFinding where
  file : Str
  pattern : Str
  suggestion : Str
deriving DecidableEq

/-- The dict returned by `check_link`: `issue` is `none` for a healthy link,
otherwise `"error"`, `"redirect"`, `"timeout"` or `str(e)`;
`final_url` is only set on the redirect branch. -/
structure LinkResult where
  url : Str
  status : Nat
  issue : Option Str
  final_url : Option Str
deriving DecidableEq

/-- A `check_link` result with a truthy issue, after `scan_links` adds the
`file` key. -/
structure LinkIssue where
  url : Str
  status : Nat
  issue : Str
  final_url : Option Str
  file : Str
deriving DecidableEq

/-- The `basics` sub-dict of the report (`check_basics`); its five flags come
from filesystem globs, which are environment inputs here. -/
structure Basics where
  has_license : Bool
  has_readme : Bool
  has_contributing : Bool
  has_gitignore : Bool
  has_issue_templates : Bool
deriving DecidableEq

/-- Outcome of the `subprocess.run(["curl", ...])` call in `check_link`:
normal completion with captured stdout, `subprocess.TimeoutExpired`, or any
other exception with its `str(e)` message. -/
inductive CurlOutcome where
  | completed (stdout : Str)
  | timedOut
  | failed (msg : Str)
deriving DecidableEq

/-- Outcome of the `subprocess.run(["gitleaks", ...])` call: normal
completion with exit code and stdout, `FileNotFoundError` (executable
missing, caught), `subprocess.TimeoutExpired` (caught), or any other raised
exception with message `msg` — e.g. `PermissionError` on a non-executable
gitleaks — which the source's `except` clause does NOT catch. -/
inductive GitleaksOutcome where
  | completed (exitCode : Int) (stdout : Str)
  | notFound
  | timedOut
  | raised (msg : Str)
deriving DecidableEq

/-- The full report dict assembled by `main` (field names as in the source). -/
structure Report where
  repo_path : Str
  repo_name : Str
  files_checked : Nat
  basics : Basics
  hardcoded_paths : List PathFinding
  potential_secrets : List SecretEntry
  secrets_scanner : Str
  org_references : List OrgFinding
  broken_links : List LinkIssue
  typos : List TypoFinding
  has_blockers : Bool
  needs_review : Bool
deriving DecidableEq

/-- One audit run's environment: the Python library services, the observable
filesystem (`files p` describes `repo_path / p`), the two precondition
checks of `main`, the outcome of `git ls-files` (`none` models a raised
exception), the gitleaks and curl outcomes, the order in which
`as_completed` yields the finished link probes, the `check_basics` glob
results, and the repository path strings. -/
structure Env where
  py : PyLib
  files : Str → FileInfo
  repoPathExists : Bool
  gitDirExists : Bool
  lsFilesOutcome : Option Str
  gitleaks : GitleaksOutcome
  curl : Str → CurlOutcome
  completionOrder : List Str
  basics : Basics
  repoPathStr : Str
  repoName : Str

/-- What `main` does as observed by the caller: print a short error JSON and
`sys.exit` with the given code; die on an uncaught exception with a
traceback (CPython exits with status 1, prints no report); or print the full
report and fall off the end of `main` (process exit status 0). -/
inductive MainOutcome where
  | fatal (errorJson : Str) (exitCode : Nat)
  | crashed (msg : Str)
  | reported (r : Report)
deriving DecidableEq

deriving instance DecidableEq for Except

/-- Embedding of `get_tracked_files`: `git ls-files` stdout split into lines,
`[]` when stdout strips to empty or when `subprocess.run` raised. -/
def get_tracked_files (lsOutcome : Option Str) : List Str :=
  match lsOutcome with
  | none => []
  | some stdout =>
    if (strip stdout).isEmpty then [] else splitOnChar '\n' (strip stdout)

/-- The `path_patterns` table of `scan_hardcoded_paths`. -/
def path_patterns : List (Str × Str) :=
  [ ( "/Users/[a-zA-Z0-9_-]+/".data, "macOS user path".data),
    ( "/home/[a-zA-Z0-9_-]+/".data, "Linux user path".data),
    ( "C:\\\\Users\\\\[a-zA-Z0-9_-]+\\\\".data, "Windows user path".data)]

/-- The `skip_extensions` set of `scan_hardcoded_paths`. -/
def skip_extensions_paths : List Str :=
  [ ".png".data, ".jpg".data, ".gif".data, ".ico".data, ".woff".data,
    ".ttf".data, ".pdf".data, ".zip".data, ".gz".data, ".tar".data]

/-- First line (numbered from `n`) on which `re.search(pat, line)` hits:
the inner `enumerate(content.split("\n"), 1)` loop of `scan_hardcoded_paths`. -/
def firstMatchLine (py : PyLib) (pat : Str) : List Str → Nat → Option (Nat × Str)
  | [], _ => none
  | l :: ls, n => if py.search pat l then some (n, l) else firstMatchLine py pat ls (n + 1)

/-- Per-file body of the `scan_hardcoded_paths` loop: filters, then the first
pattern with a `re.findall` hit contributes at most one finding (sample from
the first matching line), and the outer `break` ends the file. -/
def hardcoded_file_issues (py : PyLib) (file_path : Str) (fi : FileInfo) :
    List PathFinding :=
  if !fi.present || !fi.isFile then []
  else if skip_extensions_paths.contains (lower (pathSuffix file_path)) then []
  else if fi.size > 200000 then []
  else
    match fi.content with
    | none => []
    | some content =>
      match path_patterns.find? (fun pd => py.search pd.1 content) with
      | none => []
      | some pd =>
        match firstMatchLine py pd.1 (splitOnChar '\n' content) 1 with
        | none => []
        | some nl => [⟨file_path, nl.1, pd.2, (strip nl.2).take 100⟩]

/-- Embedding of `scan_hardcoded_paths`: the loop over `tracked_files[:300]`. -/
def scan_hardcoded_paths (py : PyLib) (files : Str → FileInfo)
    (tracked_files : List Str) : List PathFinding :=
  (tracked_files.take 300).flatMap (fun p => hardcoded_file_issues py p (files p))

/-- The `secret_patterns` table of `scan_secrets_fallback`. -/
def secret_patterns : List (Str × Str) :=
  [ ( "sk-ant-[a-zA-Z0-9-_]\x7b90,\x7d".data, "Anthropic API key".data),
    ( "sk-[a-zA-Z0-9]\x7b48\x7d".data, "OpenAI API key".data),
    ( "sk-proj-[a-zA-Z0-9-_]\x7b80,\x7d".data, "OpenAI project API key".data),
    ( "ghp_[a-zA-Z0-9]\x7b36\x7d".data, "GitHub personal access token".data),
    ( "gho_[a-zA-Z0-9]\x7b36\x7d".data, "GitHub OAuth token".data),
    ( "github_pat_[a-zA-Z0-9]\x7b22\x7d_[a-zA-Z0-9]\x7b59\x7d".data,
      "GitHub fine-grained PAT".data),
    ( "AKIA[0-9A-Z]\x7b16\x7d".data, "AWS access key ID".data),
    ( "xoxb-[0-9]\x7b11\x7d-[0-9]\x7b11\x7d-[a-zA-Z0-9]\x7b24\x7d".data,
      "Slack bot token".data),
    ( "xoxp-[0-9]\x7b11\x7d-[0-9]\x7b11\x7d-[a-zA-Z0-9]\x7b24\x7d".data,
      "Slack user token".data),
    ( "-----BEGIN (?:RSA |DSA |EC )?PRIVATE KEY-----".data, "Private key".data)]

/-- The `skip_extensions` set of `scan_secrets_fallback` (adds `.lock`). -/
def skip_extensions_secrets : List Str :=
  skip_extensions_paths ++ [ ".lock".data]

/-- Per-file body of the `scan_secrets_fallback` loop: first matching pattern
contributes one finding, then `break`. -/
def secret_file_issues (py : PyLib) (file_path : Str) (fi : FileInfo) :
    List SecretEntry :=
  if !fi.present || !fi.isFile then []
  else if skip_extensions_secrets.contains (lower (pathSuffix file_path)) then []
  else if fi.size > 200000 then []
  else
    match fi.content with
    | none => []
    | some content =>
      match secret_patterns.find? (fun pd => py.search pd.1 content) with
      | none => []
      | some pd => [⟨file_path, none, pd.2, "HIGH".data⟩]

/-- Embedding of `scan_secrets_fallback`: the loop over `tracked_files[:300]`. -/
def scan_secrets_fallback (py : PyLib) (files : Str → FileInfo)
    (tracked_files : List Str) : List SecretEntry :=
  (tracked_files.take 300).flatMap (fun p => secret_file_issues py p (files p))

/-- Gitleaks JSON object mapped to a report entry, with the `dict.get`
fallbacks of the source (`File`→"unknown", `StartLine`→0,
`Description`→`RuleID`→"secret"). -/
def secret_from_gitleaks (e : GitleaksEntry) : SecretEntry :=
  ⟨e.File.getD "unknown".data, some (e.StartLine.getD 0),
    e.Description.getD (e.RuleID.getD "secret".data), "HIGH".data⟩

/-- Embedding of `scan_secrets_gitleaks`.  `.ok none` models the Python
`None` return (tool unusable: unexpected exit code, missing executable,
timeout, or a JSON decode error — the caught exceptions); `.ok (some _)` the
parsed findings (exit codes 0 and 1 are both healthy, empty stdout means no
findings).  `.error msg` models an exception the source does not catch — a
subprocess error other than FileNotFoundError/TimeoutExpired, or a
TypeError/AttributeError from the comprehension on decoded-but-wrong-shape
JSON — which propagates out of the function. -/
def scan_secrets_gitleaks (py : PyLib) (g : GitleaksOutcome) :
    Except Str (Option (List SecretEntry)) :=
  match g with
  | .notFound => .ok none
  | .timedOut => .ok none
  | .raised msg => .error msg
  | .completed code stdout =>
    if code ≠ 0 ∧ code ≠ 1 then .ok none
    else if (strip stdout).isEmpty then .ok (some [])
    else
      match py.parseGitleaks stdout with
      | .decodeError => .ok none
      | .objects entries => .ok (some (entries.map secret_from_gitleaks))
      | .badShape msg => .error msg

/-- Embedding of `scan_potential_secrets`: gitleaks when usable, else the
fallback pattern scanner; the second component is the `secrets_scanner`
label of the report.  An uncaught exception from the gitleaks step
propagates (`.error`). -/
def scan_potential_secrets (py : PyLib) (g : GitleaksOutcome)
    (files : Str → FileInfo) (tracked_files : List Str) :
    Except Str (List SecretEntry × Str) :=
  match scan_secrets_gitleaks py g with
  | .error msg => .error msg
  | .ok (some r) => .ok (r, "gitleaks".data)
  | .ok none => .ok (scan_secrets_fallback py files tracked_files, "fallback".data)

/-- The `patterns` table of `scan_org_references`. -/
def org_patterns : List (Str × Str) :=
  [ ( "Apart\\s*Research".data, "Apart Research reference".data),
    ( "apartresearch".data, "apartresearch reference".data),
    ( "@apartresearch\\.com".data, "Apart email".data),
    ( "notion\\.so/[a-f0-9-]\x7b32,\x7d".data, "Notion page/database ID".data)]

/-- The `skip_extensions` set of `scan_org_references`. -/
def skip_extensions_org : List Str :=
  skip_extensions_paths ++ [ ".lock".data]

/-- The `skip_files` substring set of `scan_org_references`. -/
def org_skip_files : List Str :=
  [ "CHANGELOG.md".data, "LICENSE".data, ".git".data]

/-- Per-file body of the `scan_org_references` loop: substring skip list,
filters, then the first case-insensitively matching pattern contributes one
finding, then `break`. -/
def org_file_issues (py : PyLib) (file_path : Str) (fi : FileInfo) :
    List OrgFinding :=
  if org_skip_files.any (fun sk => isSubstring sk file_path) then []
  else if !fi.present || !fi.isFile then []
  else if skip_extensions_org.contains (lower (pathSuffix file_path)) then []
  else if fi.size > 100000 then []
  else
    match fi.content with
    | none => []
    | some content =>
      match org_patterns.find? (fun pd => py.searchCI pd.1 content) with
      | none => []
      | some pd => [⟨file_path, pd.2⟩]

/-- Embedding of `scan_org_references`: the loop over `tracked_files[:200]`. -/
def scan_org_references (py : PyLib) (files : Str → FileInfo)
    (tracked_files : List Str) : List OrgFinding :=
  (tracked_files.take 200).flatMap (fun p => org_file_issues py p (files p))

/-- The `typo_patterns` table of `scan_typos`. -/
def typo_patterns : List (Str × Str) :=
  [ ( "\\bshell\\s+check\\b".data, "shellcheck".data),
    ( "\\bgit\\s+hub\\b".data, "GitHub".data),
    ( "\\bgit\\s+lab\\b".data, "GitLab".data),
    ( "\\bj\\s+q\\b".data, "jq".data),
    ( "\\bp\\s+d\\s+f\\b".data, "pdf".data),
    ( "\\bc\\s+l\\s+i\\b".data, "CLI".data),
    ( "\\ba\\s+p\\s+i\\b".data, "API".data),
    ( "\\bu\\s+r\\s+l\\b".data, "URL".data)]

/-- Documentation-file test shared by `scan_links` and `scan_typos`:
`file_path.endswith((".md", ".rst", ".txt"))`. -/
def isDocFile (p : Str) : Bool :=
  endswith p ".md".data || endswith p ".rst".data || endswith p ".txt".data

/-- Per-file body of the `scan_typos` loop: every case-insensitively matching
typo pattern contributes a finding (no `break`). -/
def typo_file_issues (py : PyLib) (file_path : Str) (fi : FileInfo) :
    List TypoFinding :=
  if !isDocFile file_path then []
  else if !fi.present || fi.size > 100000 then []
  else
    match fi.content with
    | none => []
    | some content =>
      typo_patterns.filterMap (fun pc =>
        if py.searchCI pc.1 content then some ⟨file_path, pc.1, pc.2⟩ else none)

/-- Embedding of `scan_typos`: the loop over the whole `tracked_files` list
(no cap). -/
def scan_typos (py : PyLib) (files : Str → FileInfo)
    (tracked_files : List Str) : List TypoFinding :=
  tracked_files.flatMap (fun p => typo_file_issues py p (files p))

/-- The status field parsed from curl's stdout in `check_link`:
`int(parts[0]) if parts[0].isdigit() else 0` after
`parts = result.stdout.strip().split(" ", 1)`. -/
def curl_status (stdout : Str) : Nat :=
  let p := (splitFirst ' ' (strip stdout)).1
  if isdigit p then toNatDigits p else 0

/-- The `final_url` field parsed from curl's stdout in `check_link`:
`parts[1] if len(parts) > 1 else ""`. -/
def curl_final_url (stdout : Str) : Str :=
  ((splitFirst ' ' (strip stdout)).2).getD []

/-- Embedding of `check_link`: classify one URL probe.  Status `>= 400` is an
`"error"`; otherwise a non-empty final domain differing from the origin
domain is a `"redirect"` carrying the final URL; a timeout is `"timeout"`;
any other exception becomes its message (never propagated). -/
def check_link (py : PyLib) (url : Str) (outcome : CurlOutcome) : LinkResult :=
  match outcome with
  | .timedOut => ⟨url, 0, some "timeout".data, none⟩
  | .failed e => ⟨url, 0, some e, none⟩
  | .completed stdout =>
    let status := curl_status stdout
    let final_url := curl_final_url stdout
    let original_domain := py.netloc url
    let final_domain := if !final_url.isEmpty then py.netloc final_url else original_domain
    if status ≥ 400 then ⟨url, status, some "error".data, none⟩
    else if !final_domain.isEmpty && final_domain ≠ original_domain then
      ⟨url, status, some "redirect".data, some final_url⟩
    else ⟨url, status, none, none⟩

/-- URLs extracted from one file by the `urls_found` loop of `scan_links`:
only `.md`/`.rst`/`.txt` files that exist and are at most 100000 bytes are
read; a read failure contributes nothing. -/
def url_file_entries (py : PyLib) (file_path : Str) (fi : FileInfo) : List Str :=
  if !isDocFile file_path then []
  else if !fi.present || fi.size > 100000 then []
  else
    match fi.content with
    | none => []
    | some content => py.findUrls content

/-- The `if url not in urls_found` insertion of `scan_links`: first-seen file
wins, later duplicates are dropped (association list in insertion order,
like the Python dict). -/
def insert_first_seen (file_path : Str) (acc : List (Str × Str)) (url : Str) :
    List (Str × Str) :=
  if (acc.map Prod.fst).contains url then acc else acc ++ [(url, file_path)]

/-- Embedding of the `urls_found` dict of `scan_links`: URL → first file it
was seen in, in insertion order. -/
def urls_found (py : PyLib) (files : Str → FileInfo) (tracked_files : List Str) :
    List (Str × Str) :=
  tracked_files.foldl
    (fun acc p => (url_file_entries py p (files p)).foldl (insert_first_seen p) acc) []

/-- The probes dispatched by `scan_links`: one `executor.submit(check_link, url)`
per key of `urls_found`. -/
def probes_dispatched (py : PyLib) (files : Str → FileInfo)
    (tracked_files : List Str) : List Str :=
  (urls_found py files tracked_files).map Prod.fst

/-- Truthiness of the `issue` field (`if result["issue"]:`): `None` and the
empty string are falsy. -/
def truthyIssue : Option Str → Bool
  | none => false
  | some s => !s.isEmpty

/-- Embedding of `urls_found[result["url"]]` (association-list lookup). -/
def links_lookup (m : List (Str × Str)) (u : Str) : Str :=
  ((m.find? (fun e => e.1 = u)).map Prod.snd).getD []

/-- The `as_completed` collection loop of `scan_links`: the finished probes
arrive in `order` (the thread-completion order, a permutation of the
submitted URLs); each result with a truthy issue gets its `file` key and is
appended. -/
def collect_link_issues (py : PyLib) (curl : Str → CurlOutcome)
    (m : List (Str × Str)) (order : List Str) : List LinkIssue :=
  order.flatMap (fun u =>
    let r := check_link py u (curl u)
    if truthyIssue r.issue then
      [⟨r.url, r.status, r.issue.getD [], r.final_url, links_lookup m r.url⟩]
    else [])

/-- Embedding of `scan_links`: extract and deduplicate URLs, return `[]` when
none were found, else gather the probe results in completion order. -/
def scan_links (py : PyLib) (files : Str → FileInfo) (tracked_files : List Str)
    (curl : Str → CurlOutcome) (order : List Str) : List LinkIssue :=
  let m := urls_found py files tracked_files
  if m.isEmpty then [] else collect_link_issues py curl m order

/-- The report dict assembled by `main` when both precondition checks pass
and the secret-scan step did not raise (source lines 378-405), including the
two derived gates.  `main` pattern-matches the secret-scan step first and
crashes without building any report on its `.error` outcome, so the
`.error` arm of the inner match below is never reached from `main` and its
value is immaterial. -/
def build_report (env : Env) : Report :=
  let tracked_files := get_tracked_files env.lsFilesOutcome
  let sres : List SecretEntry × Str :=
    match scan_potential_secrets env.py env.gitleaks env.files tracked_files with
    | .ok r => r
    | .error _ => ([], [])
  let link_issues := scan_links env.py env.files tracked_files env.curl env.completionOrder
  let hp := scan_hardcoded_paths env.py env.files tracked_files
  let org := scan_org_references env.py env.files tracked_files
  let ty := scan_typos env.py env.files tracked_files
  { repo_path := env.repoPathStr
    repo_name := env.repoName
    files_checked := (tracked_files.take 300).length
    basics := env.basics
    hardcoded_paths := hp
    potential_secrets := sres.1
    secrets_scanner := sres.2
    org_references := org
    broken_links := link_issues
    typos := ty
    has_blockers := !sres.1.isEmpty
    needs_review := !hp.isEmpty || !org.isEmpty || !link_issues.isEmpty || !ty.isEmpty }

/-- The error object `json.dumps({"error": msg})` printed on a fatal
precondition. -/
def errorJson (msg : Str) : Str :=
  "\x7b\"error\": \"".data ++ msg ++ "\"\x7d".data

/-- Embedding of `main`: the two fatal precondition checks (missing path,
missing `.git`), each `sys.exit(1)` after printing a short error JSON; then
the secret-scan step at source line 380, whose uncaught exceptions abort
`main` with a traceback before anything is printed; otherwise the full
report is printed and the process exits normally. -/
def main (env : Env) : MainOutcome :=
  if !env.repoPathExists then
    .fatal (errorJson ( "Path does not exist: ".data ++ env.repoPathStr)) 1
  else if !env.gitDirExists then
    .fatal (errorJson ( "Not a git repository: ".data ++ env.repoPathStr)) 1
  else
    match scan_potential_secrets env.py env.gitleaks env.files
      (get_tracked_files env.lsFilesOutcome) with
    | .error msg => .crashed msg
    | .ok _ => .reported (build_report env)

/-- Process exit status of an outcome of `main` (CPython exits with status 1
on an uncaught exception). -/
def exitCode : MainOutcome → Nat
  | .fatal _ c => c
  | .crashed _ => 1
  | .reported _ => 0

/-- Modelled from the spec: the spec's `needs_review` gate also names a list
of unfixable markdown issues from an optional markdown auto-fix step, but
`audit.py` contains no markdown scanner and its report has no such list, so
the list associated with every run is empty. -/
def unfixable_markdown_issues (_env : Env) : List Str := []

/-- All `(url, file)` link occurrences in scan order, duplicates included:
the flattening of the two nested extraction loops of `scan_links`. -/
def link_occurrences (py : PyLib) (files : Str → FileInfo)
    (tracked_files : List Str) : List (Str × Str) :=
  tracked_files.flatMap (fun p => (url_file_entries py p (files p)).map (fun u => (u, p)))

/-- `insert_first_seen` with the file already paired in: one step of the
deduplicating fold over `link_occurrences`. -/
def first_seen_step (acc : List (Str × Str)) (uf : Str × Str) :
    List (Str × Str) :=
  if (acc.map Prod.fst).contains uf.1 then acc else acc ++ [uf]

/-- Concrete Python-library services for witness runs: every pattern matches
any non-empty content, one fixed URL per readable document, and `netloc`
reads the domain of an `https://` URL. -/
def samplePy : PyLib where
  search := fun _ c => !c.isEmpty
  searchCI := fun _ _ => true
  findUrls := fun c => if c.isEmpty then [] else [ "https://e.com/x".data]
  netloc := fun u => (u.drop 8).takeWhile (fun a => a ≠ '/')
  parseGitleaks := fun _ => .decodeError

/-- Concrete filesystem for witness runs: one markdown file and one Python
file with content, everything else absent. -/
def sampleFiles : Str → FileInfo := fun p =>
  if p = "a.md".data then ⟨true, true, 10, some "hello /Users/bob/ world".data⟩
  else if p = "a.py".data then ⟨true, true, 10, some "hello /Users/bob/ world".data⟩
  else ⟨false, false, 0, none⟩

/-- A concrete healthy run: one tracked markdown file, gitleaks missing
(fallback scanner), the one link broken. -/
def sampleEnv : Env where
  py := samplePy
  files := sampleFiles
  repoPathExists := true
  gitDirExists := true
  lsFilesOutcome := some "a.md".data
  gitleaks := .notFound
  curl := fun _ => .completed "404 ".data
  completionOrder := [ "https://e.com/x".data]
  basics := ⟨true, true, false, true, false⟩
  repoPathStr := "/tmp/r".data
  repoName := "r".data

/-- `sampleEnv` with different basics flags only (same scan inputs). -/
def sampleEnv2 : Env := { sampleEnv with basics := ⟨false, false, false, false, false⟩ }

/-- `sampleEnv` where `git ls-files` raised (empty inventory). -/
def sampleEnvLsFail : Env := { sampleEnv with lsFilesOutcome := none }

/-- A concrete gitleaks JSON object for witness runs. -/
def sampleGlEntry : GitleaksEntry :=
  ⟨some "f".data, some 3, none, some "rule".data⟩

/-- `samplePy` with a gitleaks JSON parser that succeeds on the fixed output
`[x]`. -/
def samplePyGl : PyLib :=
  { samplePy with parseGitleaks := fun s =>
      if s = "[x]".data then .objects [sampleGlEntry] else .decodeError }

/-- `samplePy` where gitleaks stdout `null` decodes to a JSON value that is
not a list of objects (`json.loads("null")` is `None`), on which the
source's list comprehension raises an uncaught TypeError. -/
def pyBadJson : PyLib :=
  { samplePy with parseGitleaks := fun s =>
      if s = "null".data
      then .badShape "TypeError: NoneType object is not iterable".data
      else .decodeError }

/-- A run passing both preconditions whose gitleaks subprocess exits 0 with
stdout `null`: valid JSON, wrong shape, uncaught TypeError. -/
def env3crash : Env :=
  { sampleEnv with py := pyBadJson, gitleaks := .completed 0 "null".data }

/-- A run passing both preconditions whose gitleaks subprocess raises an
exception outside the caught set (gitleaks present but not executable). -/
def env3raised : Env :=
  { sampleEnv with
      gitleaks := .raised "PermissionError: Permission denied: gitleaks".data }

/-- A run whose `git ls-files` raised (empty inventory) and whose gitleaks
subprocess exits 0 with the wrong-shape stdout `null`. -/
def env10crash : Env :=
  { sampleEnvLsFail with py := pyBadJson, gitleaks := .completed 0 "null".data }

/-- Python-library services for the cap-bypass run: one fixed URL per
readable document and no pattern matches. -/
def capPy : PyLib where
  search := fun _ _ => false
  searchCI := fun _ _ => false
  findUrls := fun _ => [ "https://cap.example/".data]
  netloc := fun _ => []
  parseGitleaks := fun _ => .decodeError

/-- Filesystem for the cap-bypass run: only `d.md` exists. -/
def capFiles : Str → FileInfo := fun p =>
  if p = "d.md".data then ⟨true, true, 10, some "y".data⟩
  else ⟨false, false, 0, none⟩

/-- Tracked-file list for the cap-bypass run: 300 filler entries followed by
one markdown file that only the uncapped URL extraction reaches. -/
def capTracked : List Str := List.replicate 300 "x".data ++ [ "d.md".data]

/-- First URL of the determinism counterexample run. -/
def url9a : Str := "https://a.com/1".data

/-- Second URL of the determinism counterexample run. -/
def url9b : Str := "https://a.com/2".data

/-- Python-library services for the determinism counterexample: one markdown
file containing the two URLs. -/
def py9 : PyLib where
  search := fun _ _ => false
  searchCI := fun _ _ => false
  findUrls := fun _ => [url9a, url9b]
  netloc := fun u => (u.drop 8).takeWhile (fun a => a ≠ '/')
  parseGitleaks := fun _ => .decodeError

/-- Filesystem for the determinism counterexample: only `m.md` exists. -/
def files9 : Str → FileInfo := fun p =>
  if p = "m.md".data then ⟨true, true, 10, some "x".data⟩
  else ⟨false, false, 0, none⟩

/-- A run whose two link probes both come back broken and complete in
submission order. -/
def env9a : Env where
  py := py9
  files := files9
  repoPathExists := true
  gitDirExists := true
  lsFilesOutcome := some "m.md".data
  gitleaks := .notFound
  curl := fun _ => .completed "404 ".data
  completionOrder := [url9a, url9b]
  basics := ⟨false, false, false, false, false⟩
  repoPathStr := "/tmp/r".data
  repoName := "r".data

/-- The identical repository, tools and network as `env9a`; only the
thread-completion order of the two (identically-behaving) probes differs. -/
def env9b : Env := { env9a with completionOrder := [url9b, url9a] }

theorem report_has_blockers_eq (env : Env) :
    (build_report env).has_blockers = !(build_report env).potential_secrets.isEmpty := rfl

theorem report_needs_review_eq (env : Env) :
    (build_report env).needs_review =
      (!(build_report env).hardcoded_paths.isEmpty ||
       !(build_report env).org_references.isEmpty ||
       !(build_report env).broken_links.isEmpty ||
       !(build_report env).typos.isEmpty) := rfl

/-- C1: for every run, `has_blockers` is true iff the secret-findings list
(from gitleaks or the fallback scanner) is non-empty, and it is a function
of that list alone, so no other finding kind ever sets it. -/
theorem C1_has_blockers_iff_secrets (env : Env) :
    ((build_report env).has_blockers = true ↔
      (build_report env).potential_secrets ≠ []) ∧
    (∀ env' : Env,
      (build_report env').potential_secrets = (build_report env).potential_secrets →
      (build_report env').has_blockers = (build_report env).has_blockers) := by
  constructor
  · rw [report_has_blockers_eq]
    simp [List.isEmpty_iff]
  · intro env' h
    rw [report_has_blockers_eq, report_has_blockers_eq, h]

/-- Witness for C1: the iff holds on the concrete run `sampleEnv`, and a run
differing only in its basics flags (same secret list) has the same gate. -/
theorem C1_has_blockers_iff_secrets_witness :
    (((build_report sampleEnv).has_blockers = true ↔
      (build_report sampleEnv).potential_secrets ≠ []) ∧
     (build_report sampleEnv2).has_blockers = (build_report sampleEnv).has_blockers) :=
  ⟨(C1_has_blockers_iff_secrets sampleEnv).1,
   (C1_has_blockers_iff_secrets sampleEnv).2 sampleEnv2 (by decide)⟩

/-- C2: for every run, `needs_review` is true iff one of the hardcoded-path,
broken-link, typo, unfixable-markdown (a list no scanner produces, hence
always empty) or org-reference lists is non-empty. -/
theorem C2_needs_review_iff (env : Env) :
    (build_report env).needs_review = true ↔
      ((build_report env).hardcoded_paths ≠ [] ∨
       (build_report env).broken_links ≠ [] ∨
       (build_report env).typos ≠ [] ∨
       unfixable_markdown_issues env ≠ [] ∨
       (build_report env).org_references ≠ []) := by
  rw [report_needs_review_eq]
  simp only [Bool.or_eq_true, Bool.not_eq_true', List.isEmpty_eq_false,
    unfixable_markdown_issues]
  tauto

/-- C3: evaluation of the code at the failing inputs.  A run that passes
both preconditions but whose gitleaks subprocess exits 0 with stdout `null`
— valid JSON that is not a list of objects — crashes `main` with an
uncaught TypeError from the list comprehension of `scan_secrets_gitleaks`
(the `except` clause catches only TimeoutExpired, FileNotFoundError and
JSONDecodeError): exit status 1, no error JSON, no report.  A subprocess
error outside the caught set (e.g. PermissionError) does the same.  This
refutes "always produces the full report and exits with code 0, regardless
of scanner outcomes". -/
theorem C3_uncaught_crash_after_preconditions :
    env3crash.repoPathExists = true ∧
    env3crash.gitDirExists = true ∧
    main env3crash = .crashed "TypeError: NoneType object is not iterable".data ∧
    exitCode (main env3crash) = 1 ∧
    env3raised.repoPathExists = true ∧
    env3raised.gitDirExists = true ∧
    main env3raised = .crashed "PermissionError: Permission denied: gitleaks".data ∧
    exitCode (main env3raised) = 1 :=
  ⟨rfl, rfl, by decide, by decide, rfl, rfl, by decide, by decide⟩

theorem report_potential_secrets_eq (env : Env) (sres : List SecretEntry × Str)
    (h : scan_potential_secrets env.py env.gitleaks env.files
      (get_tracked_files env.lsFilesOutcome) = .ok sres) :
    (build_report env).potential_secrets = sres.1 := by
  simp only [build_report, h]

/-- Counterexample refuting C10 as stated: a run whose tracked-file
enumeration fails (inventory `[]`, as claimed) but whose gitleaks subprocess
exits 0 with the wrong-shape stdout `null` does not complete with the full
report and exit 0: `main` crashes on the uncaught TypeError with exit
status 1 and no report. -/
theorem C10_crash_counterexample :
    env10crash.lsFilesOutcome = none ∧
    env10crash.repoPathExists = true ∧
    env10crash.gitDirExists = true ∧
    get_tracked_files env10crash.lsFilesOutcome = [] ∧
    main env10crash = .crashed "TypeError: NoneType object is not iterable".data ∧
    exitCode (main env10crash) = 1 :=
  ⟨rfl, rfl, rfl, rfl, by decide, by decide⟩

/-- C10 amended: when `git ls-files` fails, the inventory is `[]` rather
than an error; provided the secret-scan step does not raise one of its
uncaught exceptions, the run still completes, prints the full report, exits
0, counts 0 files, and every per-file finding list is empty (the secrets
list too when gitleaks was unusable and the fallback ran). -/
theorem C10_inventory_failure_not_fatal (env : Env)
    (hls : env.lsFilesOutcome = none)
    (hre : env.repoPathExists = true) (hgd : env.gitDirExists = true)
    (hok : ∃ v, scan_secrets_gitleaks env.py env.gitleaks = Except.ok v) :
    get_tracked_files env.lsFilesOutcome = [] ∧
    main env = .reported (build_report env) ∧
    exitCode (main env) = 0 ∧
    (build_report env).files_checked = 0 ∧
    (build_report env).hardcoded_paths = [] ∧
    (build_report env).org_references = [] ∧
    (build_report env).typos = [] ∧
    (build_report env).broken_links = [] ∧
    (scan_secrets_gitleaks env.py env.gitleaks = .ok none →
      (build_report env).potential_secrets = []) := by
  have ht : get_tracked_files env.lsFilesOutcome = [] := by rw [hls]; rfl
  obtain ⟨v, hv⟩ := hok
  have hps : ∃ sres, scan_potential_secrets env.py env.gitleaks env.files
      (get_tracked_files env.lsFilesOutcome) = .ok sres := by
    cases v with
    | none =>
      exact ⟨(scan_secrets_fallback env.py env.files
          (get_tracked_files env.lsFilesOutcome), "fallback".data),
        by simp [scan_potential_secrets, hv]⟩
    | some r =>
      exact ⟨(r, "gitleaks".data), by simp [scan_potential_secrets, hv]⟩
  obtain ⟨sres, hps⟩ := hps
  refine ⟨ht, ?_, ?_, ?_, ?_, ?_, ?_, ?_, ?_⟩
  · simp [main, hre, hgd, hps]
  · simp [main, hre, hgd, hps, exitCode]
  · show ((get_tracked_files env.lsFilesOutcome).take 300).length = 0
    rw [ht]; rfl
  · show scan_hardcoded_paths env.py env.files (get_tracked_files env.lsFilesOutcome) = []
    rw [ht]; rfl
  · show scan_org_references env.py env.files (get_tracked_files env.lsFilesOutcome) = []
    rw [ht]; rfl
  · show scan_typos env.py env.files (get_tracked_files env.lsFilesOutcome) = []
    rw [ht]; rfl
  · show scan_links env.py env.files (get_tracked_files env.lsFilesOutcome)
      env.curl env.completionOrder = []
    rw [ht]; rfl
  · intro hgl
    have hps' : scan_potential_secrets env.py env.gitleaks env.files
        (get_tracked_files env.lsFilesOutcome) =
        .ok (scan_secrets_fallback env.py env.files
          (get_tracked_files env.lsFilesOutcome), "fallback".data) := by
      simp [scan_potential_secrets, hgl]
    rw [report_potential_secrets_eq env _ hps']
    rw [ht]
    rfl

/-- Witness for the amended C10: the concrete run whose `git ls-files`
raised and whose gitleaks binary was absent (fallback, no crash). -/
theorem C10_inventory_failure_not_fatal_witness :
    get_tracked_files sampleEnvLsFail.lsFilesOutcome = [] ∧
    exitCode (main sampleEnvLsFail) = 0 ∧
    (build_report sampleEnvLsFail).files_checked = 0 ∧
    (build_report sampleEnvLsFail).broken_links = [] ∧
    (build_report sampleEnvLsFail).potential_secrets = [] :=
  have h := C10_inventory_failure_not_fatal sampleEnvLsFail rfl rfl rfl
    ⟨none, by decide⟩
  ⟨h.1, h.2.2.1, h.2.2.2.1, h.2.2.2.2.2.2.2.1, h.2.2.2.2.2.2.2.2 (by decide)⟩

/-- C4: gitleaks exit code 1 with parseable JSON is findings-present (tool
healthy, source label "gitleaks"); an exit code outside 0 and 1, a missing
executable, a timeout, or unparseable JSON each switch to the in-process
fallback scanner with source label "fallback". -/
theorem C4_gitleaks_exit_code_policy (py : PyLib) (files : Str → FileInfo)
    (tracked_files : List Str) :
    (∀ stdout entries, (strip stdout).isEmpty = false →
        py.parseGitleaks stdout = .objects entries →
        scan_potential_secrets py (.completed 1 stdout) files tracked_files =
          .ok (entries.map secret_from_gitleaks, "gitleaks".data)) ∧
    (∀ (code : Int) stdout, code ≠ 0 → code ≠ 1 →
        scan_potential_secrets py (.completed code stdout) files tracked_files =
          .ok (scan_secrets_fallback py files tracked_files, "fallback".data)) ∧
    (scan_potential_secrets py .notFound files tracked_files =
        .ok (scan_secrets_fallback py files tracked_files, "fallback".data)) ∧
    (scan_potential_secrets py .timedOut files tracked_files =
        .ok (scan_secrets_fallback py files tracked_files, "fallback".data)) ∧
    (∀ (code : Int) stdout, (code = 0 ∨ code = 1) → (strip stdout).isEmpty = false →
        py.parseGitleaks stdout = .decodeError →
        scan_potential_secrets py (.completed code stdout) files tracked_files =
          .ok (scan_secrets_fallback py files tracked_files, "fallback".data)) := by
  refine ⟨?_, ?_, rfl, rfl, ?_⟩
  · intro stdout entries hs hp
    simp [scan_potential_secrets, scan_secrets_gitleaks, hs, hp]
  · intro code stdout h0 h1
    simp [scan_potential_secrets, scan_secrets_gitleaks, h0, h1]
  · intro code stdout hc hs hp
    rcases hc with rfl | rfl <;>
      simp [scan_potential_secrets, scan_secrets_gitleaks, hs, hp]

/-- Witness for C4: a concrete parser that accepts the fixed output `[x]`;
exit 1 parses, exit 2 and a decode failure fall back. -/
theorem C4_gitleaks_exit_code_policy_witness :
    scan_potential_secrets samplePyGl (.completed 1 "[x]".data) sampleFiles
      [ "a.py".data] = .ok ([sampleGlEntry].map secret_from_gitleaks, "gitleaks".data) ∧
    scan_potential_secrets samplePyGl (.completed 2 "[x]".data) sampleFiles
      [ "a.py".data] =
      .ok (scan_secrets_fallback samplePyGl sampleFiles [ "a.py".data], "fallback".data) ∧
    scan_potential_secrets samplePyGl (.completed 0 "oops".data) sampleFiles
      [ "a.py".data] =
      .ok (scan_secrets_fallback samplePyGl sampleFiles [ "a.py".data], "fallback".data) :=
  ⟨(C4_gitleaks_exit_code_policy samplePyGl sampleFiles [ "a.py".data]).1
      "[x]".data [sampleGlEntry] (by decide) (by decide),
   (C4_gitleaks_exit_code_policy samplePyGl sampleFiles [ "a.py".data]).2.1
      2 "[x]".data (by decide) (by decide),
   (C4_gitleaks_exit_code_policy samplePyGl sampleFiles [ "a.py".data]).2.2.2.2
      0 "oops".data (Or.inl rfl) (by decide) (by decide)⟩

/-- C7: a parsed status ≥ 400 is a broken link; below 400 a non-empty final
domain differing from the origin domain is a redirect carrying the final
URL; a timeout is "timeout"; any other transport failure yields its message
instead of raising. -/
theorem C7_link_classification (py : PyLib) (url stdout e : Str) :
    (curl_status stdout ≥ 400 →
      check_link py url (.completed stdout) =
        ⟨url, curl_status stdout, some "error".data, none⟩) ∧
    (curl_status stdout < 400 →
      (curl_final_url stdout).isEmpty = false →
      (py.netloc (curl_final_url stdout)).isEmpty = false →
      py.netloc (curl_final_url stdout) ≠ py.netloc url →
      check_link py url (.completed stdout) =
        ⟨url, curl_status stdout, some "redirect".data,
          some (curl_final_url stdout)⟩) ∧
    (check_link py url .timedOut = ⟨url, 0, some "timeout".data, none⟩) ∧
    (check_link py url (.failed e) = ⟨url, 0, some e, none⟩) := by
  refine ⟨?_, ?_, rfl, rfl⟩
  · intro h
    simp [check_link, h]
  · intro hlt hne hdne hdiff
    simp [check_link, Nat.not_le.mpr hlt, hne, hdne, hdiff]

/-- Witness for C7: concrete probes of the broken, cross-domain-redirect and
timeout branches. -/
theorem C7_link_classification_witness :
    check_link samplePy "https://e.com/x".data (.completed "404 ".data) =
      ⟨"https://e.com/x".data, curl_status "404 ".data, some "error".data, none⟩ ∧
    check_link samplePy "https://e.com/x".data
        (.completed "301 https://f.com/y".data) =
      ⟨"https://e.com/x".data, curl_status "301 https://f.com/y".data,
        some "redirect".data, some (curl_final_url "301 https://f.com/y".data)⟩ ∧
    check_link samplePy "https://e.com/x".data .timedOut =
      ⟨"https://e.com/x".data, 0, some "timeout".data, none⟩ :=
  ⟨(C7_link_classification samplePy "https://e.com/x".data "404 ".data []).1
      (by decide),
   (C7_link_classification samplePy "https://e.com/x".data
      "301 https://f.com/y".data []).2.1 (by decide) (by decide) (by decide) (by decide),
   (C7_link_classification samplePy "https://e.com/x".data "".data []).2.2.1⟩

theorem take_take_300 (l : List Str) : (l.take 300).take 300 = l.take 300 := by
  rw [List.take_take]; norm_num

theorem take_take_200 (l : List Str) : (l.take 300).take 200 = l.take 200 := by
  rw [List.take_take]; norm_num

set_option maxRecDepth 8000

/-- C8: the three per-file content scanners read at most the first 300
tracked files (their output is unchanged by truncating the inventory to
300), `files_checked` is the size of that capped list, and the link-URL
extraction bypasses the cap (a URL past entry 300 is still collected). -/
theorem C8_per_file_caps :
    (∀ (py : PyLib) (files : Str → FileInfo) (tracked_files : List Str),
      scan_hardcoded_paths py files tracked_files =
        scan_hardcoded_paths py files (tracked_files.take 300) ∧
      scan_secrets_fallback py files tracked_files =
        scan_secrets_fallback py files (tracked_files.take 300) ∧
      scan_org_references py files tracked_files =
        scan_org_references py files (tracked_files.take 300)) ∧
    (∀ env : Env, (build_report env).files_checked =
      ((get_tracked_files env.lsFilesOutcome).take 300).length) ∧
    (∃ (py : PyLib) (files : Str → FileInfo) (tracked_files : List Str),
      urls_found py files tracked_files ≠
        urls_found py files (tracked_files.take 300)) := by
  refine ⟨?_, fun env => rfl, ⟨capPy, capFiles, capTracked, by decide⟩⟩
  intro py files tracked_files
  refine ⟨?_, ?_, ?_⟩
  · simp [scan_hardcoded_paths, take_take_300]
  · simp [scan_secrets_fallback, take_take_300]
  · simp [scan_org_references, take_take_200]

theorem firstMatchLine_isSome (py : PyLib) (pat : Str) :
    ∀ (ls : List Str) (n : Nat), (∃ l, l ∈ ls ∧ py.search pat l = true) →
      (firstMatchLine py pat ls n).isSome = true := by
  intro ls
  induction ls with
  | nil =>
    intro n h
    rcases h with ⟨l, hl, -⟩
    cases hl
  | cons a t ih =>
    intro n h
    by_cases ha : py.search pat a = true
    · simp [firstMatchLine, ha]
    · rcases h with ⟨l, hl, hm⟩
      rcases List.mem_cons.mp hl with rfl | hlt
      · exact absurd hm ha
      · simpa [firstMatchLine, ha] using ih (n + 1) ⟨l, hlt, hm⟩

/-- C5: for the secret-fallback, org-reference and hardcoded-path checks, a
scanned file whose content matches two distinct patterns of the same check
(for the hardcoded-path check, with each content-level match visible on some
line, as the line-free regexes guarantee) contributes exactly one finding to
that check's list. -/
theorem C5_first_match_per_file (py : PyLib) (files : Str → FileInfo) (p c : Str)
    (hpresent : (files p).present = true) (hisfile : (files p).isFile = true)
    (hcontent : (files p).content = some c) :
    (skip_extensions_secrets.contains (lower (pathSuffix p)) = false →
      (files p).size ≤ 200000 →
      ∀ pd1 pd2, pd1 ∈ secret_patterns → pd2 ∈ secret_patterns → pd1 ≠ pd2 →
        py.search pd1.1 c = true → py.search pd2.1 c = true →
        (scan_secrets_fallback py files [p]).length = 1) ∧
    (org_skip_files.any (fun sk => isSubstring sk p) = false →
      skip_extensions_org.contains (lower (pathSuffix p)) = false →
      (files p).size ≤ 100000 →
      ∀ pd1 pd2, pd1 ∈ org_patterns → pd2 ∈ org_patterns → pd1 ≠ pd2 →
        py.searchCI pd1.1 c = true → py.searchCI pd2.1 c = true →
        (scan_org_references py files [p]).length = 1) ∧
    (skip_extensions_paths.contains (lower (pathSuffix p)) = false →
      (files p).size ≤ 200000 →
      (∀ pd, pd ∈ path_patterns → py.search pd.1 c = true →
        ∃ l, l ∈ splitOnChar '\n' c ∧ py.search pd.1 l = true) →
      ∀ pd1 pd2, pd1 ∈ path_patterns → pd2 ∈ path_patterns → pd1 ≠ pd2 →
        py.search pd1.1 c = true → py.search pd2.1 c = true →
        (scan_hardcoded_paths py files [p]).length = 1) := by
  refine ⟨?_, ?_, ?_⟩
  · intro hskip hsize pd1 _pd2 h1 _h2 _hne hm1 _hm2
    have hns : ¬ ((files p).size > 200000) := Nat.not_lt.mpr hsize
    have hfind : (secret_patterns.find? (fun pd => py.search pd.1 c)).isSome := by
      rw [List.find?_isSome]
      exact ⟨pd1, h1, hm1⟩
    obtain ⟨pd, hpd⟩ := Option.isSome_iff_exists.mp hfind
    have hskip' : lower (pathSuffix p) ∉ skip_extensions_secrets := by simpa using hskip
    simp [scan_secrets_fallback, secret_file_issues, hpresent, hisfile, hskip',
      hcontent, hns, hpd]
  · intro hsf hskip hsize pd1 _pd2 h1 _h2 _hne hm1 _hm2
    have hns : ¬ ((files p).size > 100000) := Nat.not_lt.mpr hsize
    have hfind : (org_patterns.find? (fun pd => py.searchCI pd.1 c)).isSome := by
      rw [List.find?_isSome]
      exact ⟨pd1, h1, hm1⟩
    obtain ⟨pd, hpd⟩ := Option.isSome_iff_exists.mp hfind
    have hsf' : ¬ ∃ x ∈ org_skip_files, isSubstring x p = true := by simpa using hsf
    have hskip' : lower (pathSuffix p) ∉ skip_extensions_org := by simpa using hskip
    simp [scan_org_references, org_file_issues, hsf', hpresent, hisfile, hskip',
      hcontent, hns, hpd]
  · intro hskip hsize hline pd1 _pd2 h1 _h2 _hne hm1 _hm2
    have hns : ¬ ((files p).size > 200000) := Nat.not_lt.mpr hsize
    have hfind : (path_patterns.find? (fun pd => py.search pd.1 c)).isSome := by
      rw [List.find?_isSome]
      exact ⟨pd1, h1, hm1⟩
    obtain ⟨pd, hpd⟩ := Option.isSome_iff_exists.mp hfind
    have hpdmem : pd ∈ path_patterns := List.mem_of_find?_eq_some hpd
    have hpdmatch : py.search pd.1 c = true := by
      have := List.find?_some hpd
      simpa using this
    have hfml : (firstMatchLine py pd.1 (splitOnChar '\n' c) 1).isSome = true :=
      firstMatchLine_isSome py pd.1 _ 1 (hline pd hpdmem hpdmatch)
    obtain ⟨nl, hnl⟩ := Option.isSome_iff_exists.mp hfml
    have hskip' : lower (pathSuffix p) ∉ skip_extensions_paths := by simpa using hskip
    simp [scan_hardcoded_paths, hardcoded_file_issues, hpresent, hisfile, hskip',
      hcontent, hns, hpd, hnl]

/-- Witness for C5: a concrete file on which every pattern matches; each of
the three checks reports exactly one finding for it. -/
theorem C5_first_match_per_file_witness :
    (scan_secrets_fallback samplePy sampleFiles [ "a.py".data]).length = 1 ∧
    (scan_org_references samplePy sampleFiles [ "a.py".data]).length = 1 ∧
    (scan_hardcoded_paths samplePy sampleFiles [ "a.py".data]).length = 1 :=
  have h := C5_first_match_per_file samplePy sampleFiles "a.py".data
    "hello /Users/bob/ world".data (by decide) (by decide) (by decide)
  ⟨h.1 (by decide) (by decide) (secret_patterns.get ⟨0, by decide⟩)
      (secret_patterns.get ⟨1, by decide⟩) (by decide) (by decide) (by decide)
      (by decide) (by decide),
   h.2.1 (by decide) (by decide) (by decide) (org_patterns.get ⟨0, by decide⟩)
      (org_patterns.get ⟨1, by decide⟩) (by decide) (by decide) (by decide)
      (by decide) (by decide),
   h.2.2 (by decide) (by decide) (by decide) (path_patterns.get ⟨0, by decide⟩)
      (path_patterns.get ⟨1, by decide⟩) (by decide) (by decide) (by decide)
      (by decide) (by decide)⟩

theorem foldl_insert_first_seen_eq (p : Str) (urls : List Str)
    (acc : List (Str × Str)) :
    urls.foldl (insert_first_seen p) acc =
      (urls.map (fun u => (u, p))).foldl first_seen_step acc := by
  rw [List.foldl_map]
  rfl

theorem urls_found_eq_fold (py : PyLib) (files : Str → FileInfo) :
    ∀ (tracked_files : List Str) (acc : List (Str × Str)),
      tracked_files.foldl
        (fun acc p => (url_file_entries py p (files p)).foldl (insert_first_seen p) acc)
        acc =
      (link_occurrences py files tracked_files).foldl first_seen_step acc := by
  intro tracked_files
  induction tracked_files with
  | nil => intro acc; rfl
  | cons p t ih =>
    intro acc
    show t.foldl _ ((url_file_entries py p (files p)).foldl (insert_first_seen p) acc) = _
    rw [ih, foldl_insert_first_seen_eq]
    simp [link_occurrences, List.foldl_append]

theorem urls_found_eq (py : PyLib) (files : Str → FileInfo)
    (tracked_files : List Str) :
    urls_found py files tracked_files =
      (link_occurrences py files tracked_files).foldl first_seen_step [] :=
  urls_found_eq_fold py files tracked_files []

theorem contains_iff_mem_str (l : List Str) (a : Str) :
    l.contains a = true ↔ a ∈ l := by simp

theorem first_seen_fold_keys_nodup :
    ∀ (occs acc : List (Str × Str)), (acc.map Prod.fst).Nodup →
      ((occs.foldl first_seen_step acc).map Prod.fst).Nodup := by
  intro occs
  induction occs with
  | nil => intro acc h; exact h
  | cons o t ih =>
    intro acc h
    show ((t.foldl first_seen_step (first_seen_step acc o)).map Prod.fst).Nodup
    apply ih
    simp only [first_seen_step]
    by_cases hc : (acc.map Prod.fst).contains o.1 = true
    · rw [if_pos hc]; exact h
    · rw [if_neg hc]
      have hnm : o.1 ∉ acc.map Prod.fst :=
        fun hm => hc ((contains_iff_mem_str _ _).mpr hm)
      rw [List.map_append]
      refine List.Nodup.append h ?_ ?_
      · simp
      · intro a ha hb
        simp only [List.map_cons, List.map_nil, List.mem_singleton] at hb
        exact hnm (hb ▸ ha)

theorem first_seen_fold_mem_keys :
    ∀ (occs acc : List (Str × Str)) (u : Str),
      u ∈ (occs.foldl first_seen_step acc).map Prod.fst ↔
        u ∈ acc.map Prod.fst ∨ u ∈ occs.map Prod.fst := by
  intro occs
  induction occs with
  | nil => intro acc u; simp
  | cons o t ih =>
    intro acc u
    show u ∈ (t.foldl first_seen_step (first_seen_step acc o)).map Prod.fst ↔ _
    rw [ih]
    simp only [first_seen_step]
    by_cases hc : (acc.map Prod.fst).contains o.1 = true
    · rw [if_pos hc]
      have hm : o.1 ∈ acc.map Prod.fst := (contains_iff_mem_str _ _).mp hc
      simp only [List.map_cons, List.mem_cons]
      constructor
      · rintro (h | h)
        · exact Or.inl h
        · exact Or.inr (Or.inr h)
      · rintro (h | h | h)
        · exact Or.inl h
        · exact Or.inl (h ▸ hm)
        · exact Or.inr h
    · rw [if_neg hc]
      rw [List.map_append]
      simp only [List.mem_append, List.map_cons, List.map_nil, List.mem_cons,
        List.mem_singleton, List.not_mem_nil, or_false]
      tauto

theorem first_seen_fold_lookup :
    ∀ (occs acc : List (Str × Str)) (u f : Str),
      (u, f) ∈ occs.foldl first_seen_step acc →
      (u, f) ∈ acc ∨ (u ∉ acc.map Prod.fst ∧
        occs.find? (fun o => o.1 == u) = some (u, f)) := by
  intro occs
  induction occs with
  | nil => intro acc u f h; exact Or.inl h
  | cons o t ih =>
    intro acc u f h
    have h' := ih (first_seen_step acc o) u f h
    simp only [first_seen_step] at h'
    by_cases hc : (acc.map Prod.fst).contains o.1 = true
    · rw [if_pos hc] at h'
      have hm : o.1 ∈ acc.map Prod.fst := (contains_iff_mem_str _ _).mp hc
      rcases h' with h' | ⟨hnm, hft⟩
      · exact Or.inl h'
      · have hne : (o.1 == u) = false := by
          rw [beq_eq_false_iff_ne]
          intro he
          exact hnm (he ▸ hm)
        refine Or.inr ⟨hnm, ?_⟩
        simp only [List.find?_cons, hne]
        exact hft
    · rw [if_neg hc] at h'
      have hnm : o.1 ∉ acc.map Prod.fst :=
        fun hm => hc ((contains_iff_mem_str _ _).mpr hm)
      rcases h' with h' | ⟨hnm', hft⟩
      · rcases List.mem_append.mp h' with h'' | h''
        · exact Or.inl h''
        · have ho : o = (u, f) := (List.mem_singleton.mp h'').symm
          subst ho
          refine Or.inr ⟨hnm, ?_⟩
          simp [List.find?_cons]
      · rw [List.map_append] at hnm'
        have h1 : u ∉ acc.map Prod.fst :=
          fun hx => hnm' (List.mem_append.mpr (Or.inl hx))
        have h2 : u ≠ o.1 := by
          intro he
          apply hnm'
          apply List.mem_append.mpr
          right
          simp [he]
        have hne : (o.1 == u) = false := by
          rw [beq_eq_false_iff_ne]
          exact fun he => h2 he.symm
        refine Or.inr ⟨h1, ?_⟩
        simp only [List.find?_cons, hne]
        exact hft

/-- C6: the `urls_found` map has pairwise-distinct URLs (one probe per
unique URL), probes are dispatched for exactly the URLs occurring in the
documentation files, each mapped URL carries the first file it was seen in,
and the number of dispatched probes equals the number of unique URLs. -/
theorem C6_unique_url_probes (py : PyLib) (files : Str → FileInfo)
    (tracked_files : List Str) :
    (probes_dispatched py files tracked_files).Nodup ∧
    (∀ u, u ∈ probes_dispatched py files tracked_files ↔
      u ∈ (link_occurrences py files tracked_files).map Prod.fst) ∧
    (∀ u f, (u, f) ∈ urls_found py files tracked_files →
      (link_occurrences py files tracked_files).find? (fun o => o.1 == u) =
        some (u, f)) ∧
    (probes_dispatched py files tracked_files).length =
      ((link_occurrences py files tracked_files).map Prod.fst).dedup.length := by
  have he := urls_found_eq py files tracked_files
  refine ⟨?_, ?_, ?_, ?_⟩
  · rw [probes_dispatched, he]
    exact first_seen_fold_keys_nodup _ [] (by simp)
  · intro u
    rw [probes_dispatched, he, first_seen_fold_mem_keys]
    simp
  · intro u f hm
    rw [he] at hm
    rcases first_seen_fold_lookup _ [] u f hm with h | ⟨-, h⟩
    · cases h
    · exact h
  · rw [probes_dispatched, he]
    refine List.Perm.length_eq ?_
    refine (List.perm_ext_iff_of_nodup
      (first_seen_fold_keys_nodup _ [] (by simp)) (List.nodup_dedup _)).mpr ?_
    intro a
    rw [List.mem_dedup, first_seen_fold_mem_keys]
    simp

/-- Witness for C6: on the concrete run, the one extracted URL is mapped to
the file it occurs in, and it is the first occurrence. -/
theorem C6_unique_url_probes_witness :
    (probes_dispatched samplePy sampleFiles [ "a.md".data]).Nodup ∧
    (link_occurrences samplePy sampleFiles [ "a.md".data]).find?
        (fun o => o.1 == "https://e.com/x".data) =
      some ( "https://e.com/x".data, "a.md".data) :=
  ⟨(C6_unique_url_probes samplePy sampleFiles [ "a.md".data]).1,
   (C6_unique_url_probes samplePy sampleFiles [ "a.md".data]).2.2.1
     "https://e.com/x".data "a.md".data (by decide)⟩

/-- Counterexample refuting C9 as stated: two runs on the same unchanged
repository with identical tool and network behaviour — `env9b` differs from
`env9a` only in the thread-completion order of its two probes, both orders
being valid completions of the same probe set — produce broken-link lists
that are not byte-identical (the two findings swap places). -/
theorem C9_counterexample :
    env9b = { env9a with completionOrder := [url9b, url9a] } ∧
    env9a.completionOrder.Perm env9b.completionOrder ∧
    env9a.completionOrder.Perm
      (probes_dispatched env9a.py env9a.files (get_tracked_files env9a.lsFilesOutcome)) ∧
    env9b.completionOrder.Perm
      (probes_dispatched env9b.py env9b.files (get_tracked_files env9b.lsFilesOutcome)) ∧
    (build_report env9a).broken_links ≠ (build_report env9b).broken_links :=
  ⟨rfl, by decide, by decide, by decide, by decide⟩

/-- C9 amended: two runs on an unchanged repository with unchanged tool and
network behaviour produce byte-identical reports except for the order of the
broken-links list, which is determined only up to the thread-completion
order: the two broken-links lists are permutations of each other, and every
other findings list is byte-identical. -/
theorem C9_amended_determinism (env : Env) (o1 o2 : List Str) (h : o1.Perm o2) :
    ((build_report { env with completionOrder := o1 }).broken_links).Perm
      ((build_report { env with completionOrder := o2 }).broken_links) ∧
    (build_report { env with completionOrder := o1 }).potential_secrets =
      (build_report { env with completionOrder := o2 }).potential_secrets ∧
    (build_report { env with completionOrder := o1 }).secrets_scanner =
      (build_report { env with completionOrder := o2 }).secrets_scanner ∧
    (build_report { env with completionOrder := o1 }).hardcoded_paths =
      (build_report { env with completionOrder := o2 }).hardcoded_paths ∧
    (build_report { env with completionOrder := o1 }).org_references =
      (build_report { env with completionOrder := o2 }).org_references ∧
    (build_report { env with completionOrder := o1 }).typos =
      (build_report { env with completionOrder := o2 }).typos ∧
    (build_report { env with completionOrder := o1 }).files_checked =
      (build_report { env with completionOrder := o2 }).files_checked := by
  refine ⟨?_, rfl, rfl, rfl, rfl, rfl, rfl⟩
  show (scan_links env.py env.files (get_tracked_files env.lsFilesOutcome)
      env.curl o1).Perm
    (scan_links env.py env.files (get_tracked_files env.lsFilesOutcome) env.curl o2)
  simp only [scan_links]
  by_cases hm : (urls_found env.py env.files (get_tracked_files env.lsFilesOutcome)).isEmpty
  · simp [hm]
  · simp only [hm, Bool.false_eq_true, if_false, collect_link_issues]
    exact h.flatMap_right _

/-- Witness for the amended C9: the two concrete completion orders of the
counterexample run yield permuted broken-links lists. -/
theorem C9_amended_determinism_witness :
    ((build_report { env9a with completionOrder := [url9a, url9b] }).broken_links).Perm
      ((build_report { env9a with completionOrder := [url9b, url9a] }).broken_links) :=
  (C9_amended_determinism env9a [url9a, url9b] [url9b, url9a] (by decide)).1

end Audit
